import Mathlib

/-!
Verification development for the PySwitchLib port-channel (LAG) core:
SNMP table-index encoding, member-port octet decoding, CLI screen-scrape
parsing (pyswitch/snmp/mlx/base/interface.py), and the ACL parameter
parsing helpers (pyswitch/snmp/base/acl/aclparam_parser.py).

Python 2 strings are modelled as lists of characters (PyStr), Python
exceptions as an explicit error type (PyErr) threaded through Except,
and the transport callback collaborator as a record of functions.
-/

/-- Python 2 byte/character string. -/
abbrev PyStr := List Char

/-- The Python exceptions raised by this layer.  The value carried by
ValueError is the message; KeyError carries the missing key. -/
inductive PyErr where
  | valueError (msg : String)
  | keyError (key : String)
  | indexError
  | attributeError
  deriving DecidableEq, Repr

instance {ε α : Type} [DecidableEq ε] [DecidableEq α] : DecidableEq (Except ε α) :=
  fun x y =>
    match x, y with
    | .error a, .error b =>
      if h : a = b then isTrue (by rw [h]) else isFalse (by intro hc; cases hc; exact h rfl)
    | .ok a, .ok b =>
      if h : a = b then isTrue (by rw [h]) else isFalse (by intro hc; cases hc; exact h rfl)
    | .error _, .ok _ => isFalse (by intro hc; cases hc)
    | .ok _, .error _ => isFalse (by intro hc; cases hc)

/-- Python str.split() whitespace set (space, tab, newline, carriage return,
vertical tab, form feed). -/
def py_is_space (c : Char) : Bool :=
  c = ' ' ∨ c = '\t' ∨ c = '\n' ∨ c = '\r' ∨ c = '\x0b' ∨ c = '\x0c'

/-- Helper for py_split: accumulates the current token (reversed). -/
def py_split_aux : List Char → List Char → List PyStr
  | [], acc => if acc = [] then [] else [acc.reverse]
  | c :: rest, acc =>
    if py_is_space c then
      if acc = [] then py_split_aux rest []
      else acc.reverse :: py_split_aux rest []
    else py_split_aux rest (c :: acc)

/-- Python str.split() with no argument: splits on runs of whitespace and
never yields empty tokens. -/
def py_split (s : PyStr) : List PyStr := py_split_aux s []

/-- Splits on every single occurrence of the separator, keeping empty
pieces, as Python str.split(sep) does; "".split(sep) is [""]. -/
def split_on_char (sep : Char) : PyStr → List PyStr
  | [] => [[]]
  | c :: rest =>
    if c = sep then [] :: split_on_char sep rest
    else
      match split_on_char sep rest with
      | [] => [[c]]
      | g :: gs => (c :: g) :: gs

/-- Python substring membership test: needle in hay. -/
def py_in (needle hay : PyStr) : Bool :=
  hay.tails.any needle.isPrefixOf

/-- Python list indexing with a non-negative index: raises IndexError when
out of range. -/
def py_index {α : Type} (l : List α) (i : Nat) : Except PyErr α :=
  if h : i < l.length then .ok (l.get ⟨i, h⟩) else .error .indexError

/-- Python chr for a byte string target: valid for 0..255 only (Python 2
raises ValueError above that). -/
def py_chr (n : Nat) : Except PyErr Char :=
  if n < 256 then .ok (Char.ofNat n) else .error (.valueError "chr arg not in range 256")

/-- Python str(n) for a non-negative integer: its decimal digits. -/
def digits_of (n : Nat) : PyStr := Nat.toDigits 10 n

/-- Python dict access on an Option-valued field: raises KeyError when the
key was never stored. -/
def dget {α : Type} (o : Option α) (key : String) : Except PyErr α :=
  match o with
  | some v => .ok v
  | none => .error (.keyError key)

/-- Python lstrip/rstrip by character set: str.strip(chars) drops leading
and trailing characters belonging to the set. -/
def py_strip_set (chars : PyStr) (s : PyStr) : PyStr :=
  ((s.dropWhile (fun c => chars.contains c)).reverse.dropWhile
    (fun c => chars.contains c)).reverse

/-- Python str.strip() with no argument: trims whitespace on both sides. -/
def py_strip_ws (s : PyStr) : PyStr :=
  ((s.dropWhile py_is_space).reverse.dropWhile py_is_space).reverse

/-- Decimal digit accumulation for py_int. -/
def digits_to_nat (s : PyStr) : Nat :=
  s.foldl (fun acc c => 10 * acc + (c.toNat - 48)) 0

/-- Python int(string): optional surrounding whitespace, optional sign,
then at least one decimal digit; anything else raises ValueError. -/
def py_int (s : PyStr) : Except PyErr Int :=
  let t := py_strip_ws s
  let signed : Bool × PyStr :=
    match t with
    | '-' :: r => (true, r)
    | '+' :: r => (false, r)
    | r => (false, r)
  if signed.2 ≠ [] ∧ signed.2.all Char.isDigit then
    .ok ((if signed.1 then (-1 : Int) else 1) * (digits_to_nat signed.2 : Int))
  else .error (.valueError "invalid literal for int with base 10")

/-! ## OID key encoder (get_port_channel_member_ports / get_port_channel_ifindex,
pyswitch/snmp/mlx/base/interface.py lines 450..462 and 527..541) -/

/-- key_oid = the list of per-character ordinal values of the LAG name:
in the source, key_oid = list of ord(c) for c in lag_name. -/
def ord_list (lag_name : PyStr) : List Nat := lag_name.map Char.toNat

/-- The loop "for item in key_oid: lag_name_oid = lag_name_oid + . + str(item)"
building the dotted character-code tail of the table key. -/
def lag_name_oid (key_oid : List Nat) : PyStr :=
  key_oid.foldl (fun acc item => acc ++ '.' :: digits_of item) []

/-- The length-prefixed OID index suffix as the source assembles it:
str(key_len) followed by the dotted codes.  Rejects names whose length is
outside 1..64, exactly as lines 452..454 do. -/
def lag_key_suffix (lag_name : PyStr) : Except PyErr PyStr :=
  let key_len := lag_name.length
  if key_len < 1 ∨ key_len > 64 then
    .error (.valueError "Port-channel name should be 1-64 characters")
  else .ok (digits_of key_len ++ lag_name_oid (ord_list lag_name))

/-- The abstract OidIndex of the spec: the length prefix followed by the
per-character ordinal values. -/
def oid_index (lag_name : PyStr) : List Nat := lag_name.length :: ord_list lag_name

/-- Dotted decimal rendering of an OID index (spec-side description of the
octet layout the source's string concatenation produces). -/
def render_oid : List Nat → PyStr
  | [] => []
  | [n] => digits_of n
  | n :: rest => digits_of n ++ '.' :: render_oid rest

/-- The character-code decode step of get_lag_id_name_map (lines 594..597):
after splitting the row id on dots, the source pops the length prefix and
maps each remaining integer back through chr.  Input here is the
length-prefixed integer layout; dropping one element models value.pop(0). -/
def map_chr : List Nat → Except PyErr PyStr
  | [] => .ok []
  | n :: rest =>
    match py_chr n with
    | .error e => .error e
    | .ok c =>
      match map_chr rest with
      | .error e => .error e
      | .ok cs => .ok (c :: cs)

/-- decode of an OidIndex layout: drop the length prefix, then chr each
code, joining the characters into the LAG name. -/
def decode_oid_index (value : List Nat) : Except PyErr PyStr :=
  map_chr (value.drop 1)

/-! ## Member-port list decoder (get_port_channel_member_ports,
lines 464..471): hex per byte, zip into quads, parse base 16. -/

/-- Python hex(n) for a non-negative n: 0x followed by lowercase hex digits. -/
def py_hex (n : Nat) : PyStr := '0' :: 'x' :: Nat.toDigits 16 n

/-- Python hex(b).lstrip(0x): drops every leading character in the set
containing the digit zero and the letter x (for b = 0 this eats the whole
string, which zfill repairs). -/
def lstrip_0x (s : PyStr) : PyStr := s.dropWhile (fun c => c = '0' ∨ c = 'x')

/-- Python str.zfill(2): left-pad with the digit zero to width 2. -/
def zfill2 (s : PyStr) : PyStr :=
  if 2 ≤ s.length then s else List.replicate (2 - s.length) '0' ++ s

/-- One element of m_list: hex(ord(x)).lstrip(0x).zfill(2). -/
def byte_hex (b : Nat) : PyStr := zfill2 (lstrip_0x (py_hex b))

/-- Python slice l with stride 4 starting at the head: indices 0, 4, 8, ... -/
def every4 {α : Type} : List α → List α
  | [] => []
  | [a] => [a]
  | [a, _] => [a]
  | [a, _, _] => [a]
  | a :: _ :: _ :: _ :: rest => a :: every4 rest

/-- Python zip over four lists: truncates at the shortest, exactly as zip
does in the source. -/
def zip4 {α : Type} : List α → List α → List α → List α → List (α × α × α × α)
  | a :: as, b :: bs, c :: cs, d :: ds => (a, b, c, d) :: zip4 as bs cs ds
  | _, _, _, _ => []

/-- Hex digit value used by int(s, 16); non-hex characters cannot occur in
the strings this layer builds. -/
def hex_digit_val (c : Char) : Nat :=
  if '0' ≤ c ∧ c ≤ '9' then c.toNat - 48
  else if 'a' ≤ c ∧ c ≤ 'f' then c.toNat - 87
  else if 'A' ≤ c ∧ c ≤ 'F' then c.toNat - 55
  else 0

/-- Base-16 accumulation. -/
def parse_hex (acc : Nat) : PyStr → Nat
  | [] => acc
  | c :: rest => parse_hex (16 * acc + hex_digit_val c) rest

/-- Python int(s, 16), which accepts an optional 0x in that base.  Every
string the decoder feeds it starts with 0x followed by valid hex digits. -/
def int16 (s : PyStr) : Nat :=
  match s with
  | '0' :: 'x' :: rest => parse_hex 0 rest
  | rest => parse_hex 0 rest

/-- The full member-port list decode of lines 466..471: per-byte two-digit
hex strings, the four stride-4 slices zipped into quads, each quad joined,
prefixed with 0x and parsed base 16. -/
def decode_member_list (lag_grp_list : List Nat) : List Nat :=
  let m_list := lag_grp_list.map byte_hex
  let hex_list :=
    (zip4 (every4 m_list) (every4 (m_list.drop 1)) (every4 (m_list.drop 2))
        (every4 (m_list.drop 3))).map
      (fun g => '0' :: 'x' :: (g.1 ++ g.2.1 ++ g.2.2.1 ++ g.2.2.2))
  hex_list.map int16

/-- Specification-side description of the decode: one unsigned integer per
4-byte big-endian group, in source order, trailing remainder ignored. -/
def be_groups : List Nat → List Nat
  | a :: b :: c :: d :: rest => (((a * 256 + b) * 256 + c) * 256 + d) :: be_groups rest
  | _ => []

/-! ## Transport callback collaborator (spec section 6) and the MIB table. -/

/-- The MIB OID table fdryLinkAggregationGroup... name to OID-prefix map:
static configuration data supplied from outside this core (SnmpMib /
SnmpMLXMib are not part of the verified slice), modelled as a function. -/
abbrev Mib := PyStr → PyStr

/-- The injected transport collaborator.  cliGet models
callback(cmd, handler=cli-get), snmpGet models callback(oid, handler=snmp-get).
idToName is the index-to-name lookup: modelled from the spec, because
get_interface_id_name_mapping lives outside the provided sources; the spec
calls it the supplied external index-name mapping service; the association
list keeps the iteration order of the returned dict.  macAddress models the
external hnmp.mac_address formatter. -/
structure Callback where
  cliGet : PyStr → Except PyErr PyStr
  snmpGet : PyStr → Except PyErr PyStr
  idToName : List Nat → Except PyErr (List (Nat × PyStr))
  macAddress : PyStr → PyStr

/-- Shared OID key builder: MIB prefix, dot, the length-prefixed dotted
name codes (the common body of lines 452..462, 529..539, 558..568). -/
def lag_key_oid (mib_entry : PyStr) (lag_name : PyStr) : Except PyErr PyStr :=
  match lag_key_suffix lag_name with
  | .error e => .error e
  | .ok suf => .ok (mib_entry ++ '.' :: suf)

/-- get_port_channel_ifindex (lines 514..541): validates the name, builds
the fdryLinkAggregationGroupIfIndex key and issues one snmp-get. -/
def get_port_channel_ifindex (mib : Mib) (cb : Callback) (lag_name : Option PyStr) :
    Except PyErr PyStr :=
  match lag_name with
  | none => .error (.valueError "Port-channel name is NULL")
  | some nm => do
    let oid ← lag_key_oid (mib "fdryLinkAggregationGroupIfIndex".data) nm
    cb.snmpGet oid

/-- get_port_channel_id (lines 543..570): same key construction against
fdryLinkAggregationGroupId. -/
def get_port_channel_id (mib : Mib) (cb : Callback) (lag_name : Option PyStr) :
    Except PyErr PyStr :=
  match lag_name with
  | none => .error (.valueError "Port-channel name is NULL")
  | some nm => do
    let oid ← lag_key_oid (mib "fdryLinkAggregationGroupId".data) nm
    cb.snmpGet oid

/-- get_port_channel_member_ports (lines 425..475): builds the
fdryLinkAggregationGroupIfList key, fetches the raw octet string, decodes
the 4-byte groups and resolves each interface id to its name. -/
def get_port_channel_member_ports (mib : Mib) (cb : Callback) (lag_name : Option PyStr) :
    Except PyErr (List (Nat × PyStr)) :=
  match lag_name with
  | none => .error (.valueError "Port-channel name is NULL")
  | some nm => do
    let oid ← lag_key_oid (mib "fdryLinkAggregationGroupIfList".data) nm
    let lag_grp_list ← cb.snmpGet oid
    let member_list := decode_member_list (lag_grp_list.map Char.toNat)
    cb.idToName member_list

/-! ## CLI screen scraper: LAG summary table (get_port_channel_list,
lines 477..512). -/

/-- One row of the show lag brief summary, in the source's tuple order:
(lag_name, lag_type, primary_port, deploy). -/
structure LagBrief where
  lag_name : PyStr
  lag_type : PyStr
  primary_port : PyStr
  deploy : Bool
  deriving DecidableEq, Repr

/-- The line loop of get_port_channel_list: the started flag is start_parse.
A line containing Deploy (re)sets the flag and is skipped; once started, a
blank line stops the scan and each other line is split on whitespace into
(token0, token1, token4, token2 = Y). -/
def lag_brief_scan : List PyStr → Bool → Except PyErr (List LagBrief)
  | [], _ => .ok []
  | line :: rest, started =>
    if py_in "Deploy".data line then lag_brief_scan rest true
    else if started then
      if line = [] then .ok []
      else
        match py_index (py_split line) 0 with
        | .error e => .error e
        | .ok lag_name =>
          match py_index (py_split line) 1 with
          | .error e => .error e
          | .ok lag_type =>
            match py_index (py_split line) 2 with
            | .error e => .error e
            | .ok dep =>
              match py_index (py_split line) 4 with
              | .error e => .error e
              | .ok primary_port =>
                match lag_brief_scan rest true with
                | .error e => .error e
                | .ok tail =>
                  .ok (⟨lag_name, lag_type, primary_port, dep = "Y".data⟩ :: tail)
    else lag_brief_scan rest false

/-- get_port_channel_list: one cli-get of show lag brief, then the header
table scan starting in the seeking state. -/
def get_port_channel_list (cb : Callback) : Except PyErr (List LagBrief) := do
  let output ← cb.cliGet "show lag brief".data
  lag_brief_scan (split_on_char '\n' output) false

/-! ## CLI screen scraper: per-member LACP status (get_lacp_member_info,
lines 362..423). -/

/-- The interface_info dict built by get_lacp_member_info; a field is none
until the corresponding update has run (reading it then raises KeyError). -/
structure LacpInfo where
  int_name : Option PyStr := none
  actor_oper_key : Option PyStr := none
  actor_agg : Option Bool := none
  actor_syn : Option Bool := none
  actor_coll : Option Bool := none
  actor_dist : Option Bool := none
  actor_activity : Option Bool := none
  part_oper_key : Option PyStr := none
  part_agg : Option Bool := none
  part_syn : Option Bool := none
  part_coll : Option Bool := none
  part_dist : Option Bool := none
  part_activity : Option Bool := none
  rx_count : Option PyStr := none
  tx_count : Option PyStr := none
  deriving DecidableEq, Repr

/-- Processing of one line that mentions the member interface (lines
384..422): split on whitespace, dispatch on token 1 (ACTR / PRTR / counter
row), reading the positional tokens the source indexes. -/
def lacp_process_line (intf_name line : PyStr) (info : LacpInfo) :
    Except PyErr LacpInfo := do
  let port_info := py_split line
  let t1 ← py_index port_info 1
  if t1 = "ACTR".data then do
    let tok4 ← py_index port_info 4
    let tok5 ← py_index port_info 5
    let tok7 ← py_index port_info 7
    let tok8 ← py_index port_info 8
    let tok9 ← py_index port_info 9
    let tok10 ← py_index port_info 10
    return { info with
      int_name := some intf_name
      actor_oper_key := some tok4
      actor_activity := some (tok5 = "Yes".data)
      actor_agg := some (tok7 = "Agg".data)
      actor_syn := some (tok8 = "Syn".data)
      actor_coll := some (tok9 = "Col".data)
      actor_dist := some (tok10 = "Dis".data) }
  else if t1 = "PRTR".data then do
    let tok4 ← py_index port_info 4
    let tok5 ← py_index port_info 5
    let tok7 ← py_index port_info 7
    let tok8 ← py_index port_info 8
    let tok9 ← py_index port_info 9
    let tok10 ← py_index port_info 10
    return { info with
      part_oper_key := some tok4
      part_activity := some (tok5 = "Yes".data)
      part_agg := some (tok7 = "Agg".data)
      part_syn := some (tok8 = "Syn".data)
      part_coll := some (tok9 = "Col".data)
      part_dist := some (tok10 = "Dis".data) }
  else do
    let tok2 ← py_index port_info 2
    let tok4 ← py_index port_info 4
    return { info with rx_count := some tok2, tx_count := some tok4 }

/-- The line loop of get_lacp_member_info (lines 380..422): a line
containing Error raises ValueError carrying that line; a line mentioning
the member updates the info dict; other lines are skipped. -/
def lacp_scan (intf_name : PyStr) : List PyStr → LacpInfo → Except PyErr LacpInfo
  | [], info => .ok info
  | line :: rest, info =>
    if py_in "Error".data line then .error (.valueError (String.mk line))
    else if py_in intf_name line then
      match lacp_process_line intf_name line info with
      | .error e => .error e
      | .ok info2 => lacp_scan intf_name rest info2
    else lacp_scan intf_name rest info

/-- get_lacp_member_info: one cli-get of show lacp lag_name NAME, then the
line scan over the output. -/
def get_lacp_member_info (cb : Callback) (lag_name intf_name : PyStr) :
    Except PyErr LacpInfo := do
  let output ← cb.cliGet ("show lacp lag_name ".data ++ lag_name)
  lacp_scan intf_name (split_on_char '\n' output) {}

/-! ## Port-channel aggregator (port_channels property, lines 262..360). -/

/-- One entry of the per-LAG interface list (lines 335..340). -/
structure MemberEntry where
  rbridge_id : Nat
  interface_type : PyStr
  interface_name : PyStr
  actor_port : Nat
  sync : PyStr
  deriving DecidableEq, Repr

/-- The mutable per-LAG loop state: the growing interface list and the
rx/tx link counters and ready_agg flag (lines 306..309). -/
structure MemberAcc where
  interface_list : List MemberEntry
  rx_link_count : Nat
  tx_link_count : Nat
  ready_agg : Nat
  deriving DecidableEq, Repr

/-- The seven LACP aggregate values bound by the dynamic-and-deployed
branch (lines 277..305). -/
structure LacpAggVals where
  system_priority : PyStr
  actor_system_id : PyStr
  partner_oper_priority : PyStr
  partner_system_id : PyStr
  admin_key : PyStr
  oper_key : PyStr
  partner_oper_key : PyStr
  deriving DecidableEq, Repr

/-- The final per-LAG record (the results dict of lines 341..357). -/
structure PortChannelResult where
  interface_name : PyStr
  interfaces : List MemberEntry
  aggregator_id : PyStr
  aggregator_type : PyStr
  is_vlag : Bool
  aggregator_mode : PyStr
  system_priority : PyStr
  actor_system_id : PyStr
  partner_oper_priority : PyStr
  partner_system_id : PyStr
  admin_key : PyStr
  oper_key : PyStr
  partner_oper_key : PyStr
  rx_link_count : Nat
  tx_link_count : Nat
  individual_agg : Nat
  ready_agg : Nat
  deriving DecidableEq, Repr

/-- Lines 277..305: when the aggregate is dynamic and deployed the seven
dot3adAgg values are fetched by snmp-get (the two system ids formatted by
mac_address); otherwise all seven stay the empty string. -/
def lacp_agg_fields (mib : Mib) (cb : Callback) (lag_ifindex : PyStr)
    (aggregator_mode : PyStr) (deploy : Bool) : Except PyErr LacpAggVals :=
  if aggregator_mode = "dynamic".data ∧ deploy = true then do
    let system_priority ←
      cb.snmpGet (mib "dot3adAggActorSystemPriority".data ++ '.' :: lag_ifindex)
    let actor_raw ← cb.snmpGet (mib "dot3adAggActorSystemID".data ++ '.' :: lag_ifindex)
    let actor_system_id := cb.macAddress actor_raw
    let partner_oper_priority ←
      cb.snmpGet (mib "dot3adAggPartnerSystemPriority".data ++ '.' :: lag_ifindex)
    let partner_raw ←
      cb.snmpGet (mib "dot3adAggPartnerSystemID".data ++ '.' :: lag_ifindex)
    let partner_system_id := cb.macAddress partner_raw
    let admin_key ← cb.snmpGet (mib "dot3adAggActorAdminKey".data ++ '.' :: lag_ifindex)
    let oper_key ← cb.snmpGet (mib "dot3adAggActorOperKey".data ++ '.' :: lag_ifindex)
    let partner_oper_key ←
      cb.snmpGet (mib "dot3adAggPartnerOperKey".data ++ '.' :: lag_ifindex)
    return ⟨system_priority, actor_system_id, partner_oper_priority, partner_system_id,
      admin_key, oper_key, partner_oper_key⟩
  else
    return ⟨[], [], [], [], [], [], []⟩

/-- The body of the member loop (lines 315..340).  int_name is the dict
value stripped of the character set of ethernet; a dynamic deployed LAG
scrapes per-member LACP state (the and-chains keep the source's
short-circuit evaluation order, so KeyError fires exactly where Python
would raise it), otherwise sync stays the digit zero and no scrape runs. -/
def process_member (cb : Callback) (lag_name : PyStr) (aggregator_mode : PyStr)
    (deploy : Bool) (acc : MemberAcc) (item : Nat × PyStr) : Except PyErr MemberAcc :=
  let int_name := py_strip_set "ethernet".data item.2
  let actor_port := item.1
  if aggregator_mode = "dynamic".data ∧ deploy = true then do
    let port ← get_lacp_member_info cb lag_name int_name
    let aa ← dget port.actor_agg "actor_agg"
    let outer ←
      if aa = true then do
        let pa ← dget port.part_agg "part_agg"
        pure pa
      else pure false
    let sync_ready ←
      if outer then do
        let ac ← dget port.actor_coll "actor_coll"
        let inner ←
          if ac = true then do
            let pc ← dget port.part_coll "part_coll"
            if pc = true then do
              let ad ← dget port.actor_dist "actor_dist"
              if ad = true then do
                let pd ← dget port.part_dist "part_dist"
                pure pd
              else pure false
            else pure false
          else pure false
        pure ((if inner then "1".data else "0".data), 1)
      else pure ("0".data, acc.ready_agg)
    let txs ← dget port.tx_count "tx_count"
    let txn ← py_int txs
    let rxs ← dget port.rx_count "rx_count"
    let rxn ← py_int rxs
    let entry : MemberEntry := ⟨0, "ethernet".data, int_name, actor_port, sync_ready.1⟩
    return ⟨acc.interface_list ++ [entry],
      acc.rx_link_count + (if 0 < rxn then 1 else 0),
      acc.tx_link_count + (if 0 < txn then 1 else 0),
      sync_ready.2⟩
  else
    let entry : MemberEntry := ⟨0, "ethernet".data, int_name, actor_port, "0".data⟩
    .ok ⟨acc.interface_list ++ [entry], acc.rx_link_count, acc.tx_link_count,
      acc.ready_agg⟩

/-- The per-LAG body of the port_channels loop (lines 269..359): ifindex
and aggregate id lookups, the LACP aggregate fields, the member-port map
and the member loop, assembled into the record. -/
def process_po (mib : Mib) (cb : Callback) (po : LagBrief) :
    Except PyErr PortChannelResult := do
  let lag_ifindex ← get_port_channel_ifindex mib cb (some po.lag_name)
  let aggregator_id ← get_port_channel_id mib cb (some po.lag_name)
  let deploy := po.deploy
  let aggregator_mode := po.lag_type
  let f ← lacp_agg_fields mib cb lag_ifindex aggregator_mode deploy
  let ifid_name ← get_port_channel_member_ports mib cb (some po.lag_name)
  let acc ← ifid_name.foldlM (process_member cb po.lag_name aggregator_mode deploy)
    ⟨[], 0, 0, 0⟩
  return ⟨po.lag_name, acc.interface_list, aggregator_id, "standard".data, false,
    aggregator_mode, f.system_priority, f.actor_system_id, f.partner_oper_priority,
    f.partner_system_id, f.admin_key, f.oper_key, f.partner_oper_key,
    acc.rx_link_count, acc.tx_link_count, 0, acc.ready_agg⟩

/-- port_channels: the summary list scrape followed by the per-LAG
processing, in summary order. -/
def port_channels (mib : Mib) (cb : Callback) : Except PyErr (List PortChannelResult) := do
  let po_list ← get_port_channel_list cb
  po_list.mapM (process_po mib cb)

/-! ## Pattern-match mode scrape: get_ip_addresses (lines 861..921). -/

/-- Python return values of get_ip_addresses: an address string, the bare
False default of the no-match branch, or the implicit None of an
unrecognised version. -/
inductive PyRet where
  | strRet (s : PyStr)
  | boolRet (b : Bool)
  | noneRet
  deriving DecidableEq, Repr

/-- Longest-prefix split of a line around a literal: the decomposition
line = a ++ lit ++ b with b nonempty and a as long as possible, matching
the greedy leading group of the Preferred-address pattern within a line. -/
def last_split_any (lit : PyStr) : PyStr → Option (PyStr × PyStr)
  | [] => none
  | c :: rest =>
    match last_split_any lit rest with
    | some (a, b) => some (c :: a, b)
    | none =>
      if lit.isPrefixOf (c :: rest) ∧ (c :: rest).drop lit.length ≠ [] then
        some ([], (c :: rest).drop lit.length)
      else none

/-- The regex of line 915 applied per line: a nonempty greedy group, the
literal Preferred-comma-subnet text, then a nonempty greedy group; the dot
of the pattern cannot cross a newline, so the search walks the lines and
within the earliest matching line takes the longest leading group. -/
def search_preferred (s : PyStr) : Option (PyStr × PyStr) :=
  (split_on_char '\n' s).findSome? fun line =>
    match line with
    | [] => none
    | c :: rest =>
      (last_split_any " [Preferred],  subnet is ".data rest).map
        fun ab => (c :: ab.1, ab.2)

/-- The regex of line 917: the earliest colon-colon-slash whose remainder
holds at least one non-newline character; the captured group runs to the
end of the line. -/
def subnet_search (lit : PyStr) : PyStr → Option PyStr
  | [] => none
  | c :: rest =>
    if lit.isPrefixOf (c :: rest) ∧
        ((c :: rest).drop lit.length).takeWhile (fun ch => ch ≠ '\n') ≠ [] then
      some (((c :: rest).drop lit.length).takeWhile (fun ch => ch ≠ '\n'))
    else subnet_search lit rest

/-- The version-4 command string of line 904. -/
def ip4_cmd (int_type name : PyStr) : PyStr :=
  "show ip inter ".data ++ int_type ++ " ".data ++ name ++ " | include address".data

/-- The version-6 command string of line 912. -/
def ip6_cmd (int_type name : PyStr) : PyStr :=
  "show ipv6 inter ".data ++ int_type ++ " ".data ++ name

/-- get_ip_addresses: version 4 searches for the ip-address label and on a
match returns token 4 of the single-space split, otherwise the literal
False; version 6 searches for the enabled marker, then chains the two
regexes (a miss of either raises AttributeError on the NoneType group
call), otherwise returns False; any other version falls off the chain and
returns None. -/
def get_ip_addresses (cb : Callback) (int_type name : PyStr) (version : Int) :
    Except PyErr PyRet :=
  if version = 4 then do
    let cli_output ← cb.cliGet (ip4_cmd int_type name)
    if py_in "ip address:".data cli_output then do
      let ip4 ← py_index (split_on_char ' ' cli_output) 4
      return .strRet ip4
    else return .boolRet false
  else if version = 6 then do
    let cli_output ← cb.cliGet (ip6_cmd int_type name)
    if py_in "IPv6 is enabled".data cli_output then
      match search_preferred cli_output with
      | none => .error .attributeError
      | some g =>
        match subnet_search "::/".data g.2 with
        | none => .error .attributeError
        | some sub => return .strRet (py_strip_ws g.1 ++ '/' :: sub)
    else return .boolRet false
  else return .noneRet

/-! ## ACL parameter parser (pyswitch/snmp/base/acl/aclparam_parser.py). -/

/-- A Python value passed in the keyword-argument mapping of the ACL
parser: the call sites pass integers and strings, with None for omitted
optional values. -/
inductive PyVal where
  | vInt (n : Int)
  | vStr (s : String)
  | vNone
  deriving DecidableEq, Repr

/-- Python truthiness over the modelled value domain. -/
def py_truthy : PyVal → Bool
  | .vInt n => n ≠ 0
  | .vStr s => s ≠ ""
  | .vNone => false

/-- Python 2 mixed-type greater-than against an integer literal: numbers
compare numerically, strings sort after every number, None before. -/
def py_gt_int (v : PyVal) (n : Int) : Bool :=
  match v with
  | .vInt m => n < m
  | .vStr _ => true
  | .vNone => false

/-- Python 2 mixed-type less-than against an integer literal. -/
def py_lt_int (v : PyVal) (n : Int) : Bool :=
  match v with
  | .vInt m => m < n
  | .vStr _ => false
  | .vNone => true

/-- Python str() over the modelled value domain. -/
def py_val_str : PyVal → String
  | .vInt n => toString n
  | .vStr s => s
  | .vNone => "None"

/-- The keyword-argument mapping: first binding wins, as in a dict. -/
abbrev Params := List (String × PyVal)

/-- Python dict[key]: KeyError when absent. -/
def py_get (params : Params) (key : String) : Except PyErr PyVal :=
  match params.lookup key with
  | some v => .ok v
  | none => .error (.keyError key)

/-- AclParamParser.parse_seq_id (lines 23..44): absent or falsy seq_id
yields None; a value in the open interval 0 < v < 214748365 is rendered
with str; anything else raises ValueError (the message keeps the format
output of the source without its quote characters). -/
def parse_seq_id (parameters : Params) : Except PyErr (Option String) :=
  match parameters.lookup "seq_id" with
  | none => .ok none
  | some v =>
    if ¬ py_truthy v then .ok none
    else if py_gt_int v 0 ∧ py_lt_int v 214748365 then .ok (some (py_val_str v))
    else .error (.valueError ("The seq_id value " ++ py_val_str v ++
      " is invalid.Valid range for sequence is 1 to 214748364."))

/-- AclParamParser.parse_mirror (lines 69..93), including its inverted
first conditional: a present mirror key returns None at once, an absent
one falls into the or-branch and raises KeyError reading it; the remaining
lines are kept although no input reaches them. -/
def parse_mirror (parameters : Params) : Except PyErr (Option String) :=
  if (parameters.lookup "mirror").isSome then .ok none
  else
    match py_get parameters "mirror" with
    | .error e => .error e
    | .ok v =>
      if ¬ py_truthy v then .ok none
      else
        let acond : Bool :=
          match parameters.lookup "action" with
          | some av => py_truthy av && !(av == .vStr "permit")
          | none => false
        if acond then
          .error (.valueError " Mirror keyword is applicable only for ACL permit clauses")
        else if (parameters.lookup "log").isSome then .ok (some "mirror")
        else
          match py_get parameters "log" with
          | .error e => .error e
          | .ok lv =>
            if ¬ py_truthy lv then .ok (some "mirror")
            else .error (.valueError "log and mirror keywords can not be used together")

/-- AclParamParser.parse_log (lines 95..118), with the same inverted first
conditional: a present log key returns None, an absent one raises
KeyError; the remaining lines are kept although no input reaches them. -/
def parse_log (parameters : Params) : Except PyErr (Option String) :=
  if (parameters.lookup "log").isSome then .ok none
  else
    match py_get parameters "log" with
    | .error e => .error e
    | .ok v =>
      if ¬ py_truthy v then .ok none
      else
        let mcond : Bool :=
          match parameters.lookup "mirror" with
          | some mv => !(mv == .vStr "False")
          | none => false
        if mcond then
          .error (.valueError "Error: mirror and log keywords can not be used together")
        else if v = .vStr "True" then .ok (some "log")
        else .ok none

/-! ## Closed inputs used by the claim witnesses and counterexamples, and
spec-side helpers used by theorem statements. -/

/-- Joins lines with newlines (the inverse view of the line split used to
state the header-table theorem). -/
def join_lines : List PyStr → PyStr
  | [] => []
  | [l] => l
  | l :: ls => l ++ '\n' :: join_lines ls

/-- The record the table scan extracts from one well-formed data line:
whitespace tokens 0, 1 and 4, with token 2 compared against Y. -/
def row_of (l : PyStr) : LagBrief :=
  ⟨(py_split l).getD 0 [], (py_split l).getD 1 [],
    (py_split l).getD 4 [], (py_split l).getD 2 [] = "Y".data⟩

/-- The member entry produced when no LACP scrape runs: sync stays the
digit zero and the name is the dict value stripped of ethernet. -/
def static_entry (item : Nat × PyStr) : MemberEntry :=
  ⟨0, "ethernet".data, py_strip_set "ethernet".data item.2, item.1, "0".data⟩

/-- Identity MIB table for closed runs: each symbolic name is its own OID
prefix. -/
def mib0 : Mib := fun key => key

/-- Closed callback for a static-LAG run: the snmp values are benign and
the CLI output is never consulted on the static path. -/
def cb_static : Callback where
  cliGet := fun _ => .ok "unused".data
  snmpGet := fun _ => .ok "7".data
  idToName := fun ml => .ok (ml.map (fun i => (i, "ethernet2/1".data)))
  macAddress := fun s => s

/-- A static, deployed summary row. -/
def po_static : LagBrief := ⟨"po1".data, "static".data, "2/1".data, true⟩

/-- The record process_po produces from mib0, cb_static and po_static. -/
def r_static : PortChannelResult :=
  ⟨"po1".data, [], "7".data, "standard".data, false, "static".data,
    [], [], [], [], [], [], [], 0, 0, 0, 0⟩

/-- The LACP member CLI output used by the dynamic closed run: an ACTR
row, a PRTR row and a counter row for member 2/1. -/
def lacp_demo_out : PyStr :=
  ("header\n2/1 ACTR a b k5 Yes x Agg Syn Col Dis\n" ++
    "2/1 PRTR a b k6 Yes x Agg Syn Col Dis\n2/1 CNT 3 t 9").data

/-- Closed callback for a dynamic-LAG run: snmp answers keyed on the exact
OIDs the encoder builds for po2, plus the member CLI scrape output. -/
def cb_dyn : Callback where
  cliGet := fun _ => .ok lacp_demo_out
  snmpGet := fun oid =>
    if oid = "fdryLinkAggregationGroupIfIndex.3.112.111.50".data then .ok "64".data
    else if oid = "fdryLinkAggregationGroupId.3.112.111.50".data then .ok "2".data
    else if oid = "fdryLinkAggregationGroupIfList.3.112.111.50".data then .ok "abcd".data
    else if oid = "dot3adAggActorSystemPriority.64".data then .ok "1".data
    else if oid = "dot3adAggActorSystemID.64".data then .ok "RAWA".data
    else if oid = "dot3adAggPartnerSystemPriority.64".data then .ok "2".data
    else if oid = "dot3adAggPartnerSystemID.64".data then .ok "RAWP".data
    else if oid = "dot3adAggActorAdminKey.64".data then .ok "10".data
    else if oid = "dot3adAggActorOperKey.64".data then .ok "11".data
    else if oid = "dot3adAggPartnerOperKey.64".data then .ok "12".data
    else .error .indexError
  idToName := fun ml => .ok (ml.map (fun i => (i, "ethernet2/1".data)))
  macAddress := fun s => 'M' :: s

/-- A dynamic, deployed summary row. -/
def po_dyn : LagBrief := ⟨"po2".data, "dynamic".data, "2/1".data, true⟩

/-- The record process_po produces from mib0, cb_dyn and po_dyn. -/
def r_dyn : PortChannelResult :=
  ⟨"po2".data, [⟨0, "ethernet".data, "2/1".data, 1633837924, "1".data⟩],
    "2".data, "standard".data, false, "dynamic".data, "1".data, "MRAWA".data,
    "2".data, "MRAWP".data, "10".data, "11".data, "12".data, 1, 1, 0, 1⟩

/-- Callback whose CLI output is a single device error line: used to show
get_port_channel_list performs no Error-line check. -/
def cb_c5 : Callback where
  cliGet := fun _ => .ok "Error: port is down".data
  snmpGet := fun _ => .error .indexError
  idToName := fun _ => .ok []
  macAddress := fun s => s

/-- Callback whose summary output has a header, one non-blank data line
that itself contains the header token, then a blank line. -/
def cb_c6 : Callback where
  cliGet := fun _ => .ok "LAG Deploy\npo1 Deploy Y n 2/1\n\njunk".data
  snmpGet := fun _ => .error .indexError
  idToName := fun _ => .ok []
  macAddress := fun s => s

/-- Callback whose summary output has a header and one short data line of
two whitespace tokens. -/
def cb_c6b : Callback where
  cliGet := fun _ => .ok "LAG Deploy\npo1 s\n\njunk".data
  snmpGet := fun _ => .error .indexError
  idToName := fun _ => .ok []
  macAddress := fun s => s

/-- Callback with a well-formed summary table: a non-header prefix line, a
header, one five-token data line, a blank line, trailing junk. -/
def cb_c6w : Callback where
  cliGet := fun _ => .ok "pre1\nLAG Deploy\npo9 static N 50 3/2\n\njunk".data
  snmpGet := fun _ => .error .indexError
  idToName := fun _ => .ok []
  macAddress := fun s => s

/-- Callback whose CLI answer holds no ip-address label at all. -/
def cb_c8 : Callback where
  cliGet := fun _ => .ok "TestPort is up".data
  snmpGet := fun _ => .error .indexError
  idToName := fun _ => .ok []
  macAddress := fun s => s

/-! ## Theorems. -/

set_option maxRecDepth 10000

theorem except_bind_ok {ε α β : Type} (x : Except ε α) (f : α → Except ε β) (b : β) :
    (x >>= f) = .ok b ↔ ∃ a, x = .ok a ∧ f a = .ok b := by
  cases x <;> simp [Bind.bind, Except.bind]

theorem map_chr_ord (l : PyStr) (h : ∀ c ∈ l, c.toNat < 256) :
    map_chr (ord_list l) = .ok l := by
  induction l with
  | nil => rfl
  | cons c t ih =>
    have hc : c.toNat < 256 := h c (List.mem_cons_self c t)
    have ht := ih (fun x hx => h x (List.mem_cons_of_mem c hx))
    show map_chr (c.toNat :: ord_list t) = .ok (c :: t)
    simp only [map_chr, py_chr, if_pos hc, Char.ofNat_toNat, ht]

theorem lag_name_oid_foldl (l : List Nat) (acc : PyStr) :
    l.foldl (fun a item => a ++ '.' :: digits_of item) acc = acc ++ lag_name_oid l := by
  induction l generalizing acc with
  | nil => simp [lag_name_oid]
  | cons n t ih =>
    show List.foldl _ (acc ++ '.' :: digits_of n) t = acc ++ lag_name_oid (n :: t)
    rw [ih]
    have : lag_name_oid (n :: t) = ('.' :: digits_of n) ++ lag_name_oid t := by
      show List.foldl _ ([] ++ '.' :: digits_of n) t = _
      rw [ih]
      simp
    rw [this, List.append_assoc]

theorem render_oid_cons (n : Nat) (l : List Nat) :
    digits_of n ++ lag_name_oid l = render_oid (n :: l) := by
  induction l generalizing n with
  | nil => simp [lag_name_oid, render_oid, List.foldl]
  | cons m t ih =>
    have h1 : lag_name_oid (m :: t) = ('.' :: digits_of m) ++ lag_name_oid t := by
      show List.foldl _ ([] ++ '.' :: digits_of m) t = _
      rw [lag_name_oid_foldl]
      simp
    have h2 : render_oid (n :: m :: t) = digits_of n ++ '.' :: render_oid (m :: t) := by
      rfl
    rw [h1, h2, ← ih m]
    simp

/-- C1: for every name of length 1 to 64 over byte characters, encoding
the name into its OID index (length prefix plus per-character codes) and
decoding that same length-prefixed layout back (dropping the prefix and
mapping each integer through chr) reproduces the name exactly; the
source-level key construction accepts exactly these names. -/
theorem c1_oid_roundtrip (name : PyStr) (h1 : 1 ≤ name.length)
    (h2 : name.length ≤ 64) (hb : ∀ c ∈ name, c.toNat < 256) :
    (∃ suf, lag_key_suffix name = .ok suf) ∧
    decode_oid_index (oid_index name) = .ok name := by
  constructor
  · exact ⟨_, by unfold lag_key_suffix; rw [if_neg (by omega)]⟩
  · show map_chr ((name.length :: ord_list name).drop 1) = .ok name
    simpa using map_chr_ord name hb

theorem c1_oid_roundtrip_witness :
    (∃ suf, lag_key_suffix "po50".data = .ok suf) ∧
    decode_oid_index (oid_index "po50".data) = .ok "po50".data :=
  c1_oid_roundtrip "po50".data (by decide) (by decide) (by decide)

/-- C2: for names of length 1 to 64 the encoder produces the OID index
made of the length followed by the per-character ordinal values, and the
source string concatenation renders exactly that index in dotted form;
po50 encodes as 4.112.111.53.48; names of any other length fail with the
ValueError acting as the InvalidLength error of the spec. -/
theorem c2_encoder_contract :
    (∀ name : PyStr, 1 ≤ name.length → name.length ≤ 64 →
      oid_index name = name.length :: name.map Char.toNat ∧
      lag_key_suffix name = .ok (render_oid (oid_index name))) ∧
    oid_index "po50".data = [4, 112, 111, 53, 48] ∧
    lag_key_suffix "po50".data = .ok "4.112.111.53.48".data ∧
    (∀ name : PyStr, name.length < 1 ∨ name.length > 64 →
      lag_key_suffix name =
        .error (.valueError "Port-channel name should be 1-64 characters")) := by
  refine ⟨?_, by decide, by decide, ?_⟩
  · intro name h1 h2
    refine ⟨rfl, ?_⟩
    unfold lag_key_suffix
    rw [if_neg (by omega)]
    rw [render_oid_cons]
    rfl
  · intro name h
    unfold lag_key_suffix
    rw [if_pos h]

theorem c2_encoder_contract_witness :
    lag_key_suffix "ab".data = .ok (render_oid (oid_index "ab".data)) ∧
    lag_key_suffix "".data =
      .error (.valueError "Port-channel name should be 1-64 characters") :=
  ⟨(c2_encoder_contract.1 "ab".data (by decide) (by decide)).2,
    c2_encoder_contract.2.2.2 "".data (by decide)⟩

theorem byte_hex_eq : ∀ b < 256, byte_hex b = [Nat.digitChar (b / 16), Nat.digitChar (b % 16)] := by
  decide

theorem hex_digit_val_digitChar : ∀ d < 16, hex_digit_val (Nat.digitChar d) = d := by
  decide

theorem zips_step {α : Type} (x0 x1 x2 x3 : α) (r : List α) :
    zip4 (every4 (x0 :: x1 :: x2 :: x3 :: r)) (every4 (x1 :: x2 :: x3 :: r))
      (every4 (x2 :: x3 :: r)) (every4 (x3 :: r)) =
    (x0, x1, x2, x3) :: zip4 (every4 r) (every4 (r.drop 1)) (every4 (r.drop 2))
      (every4 (r.drop 3)) := by
  rcases r with _ | ⟨r0, _ | ⟨r1, _ | ⟨r2, rr⟩⟩⟩ <;> simp [every4, zip4]

theorem decode_member_cons (a b c d : Nat) (rest : List Nat) :
    decode_member_list (a :: b :: c :: d :: rest) =
      int16 ('0' :: 'x' :: (byte_hex a ++ byte_hex b ++ byte_hex c ++ byte_hex d)) ::
      decode_member_list rest := by
  unfold decode_member_list
  simp only [List.map_cons, List.drop_succ_cons, List.drop_zero]
  rw [zips_step]
  simp

theorem parse_hex_pair (acc : Nat) (c1 c2 : Char) :
    parse_hex acc [c1, c2] = 16 * (16 * acc + hex_digit_val c1) + hex_digit_val c2 := rfl

theorem parse_hex_append (x y : PyStr) (acc : Nat) :
    parse_hex acc (x ++ y) = parse_hex (parse_hex acc x) y := by
  induction x generalizing acc with
  | nil => rfl
  | cons c t ih => simp [parse_hex, ih]

theorem int16_quad (a b c d : Nat) (ha : a < 256) (hb : b < 256) (hc : c < 256)
    (hd : d < 256) :
    int16 ('0' :: 'x' :: (byte_hex a ++ byte_hex b ++ byte_hex c ++ byte_hex d)) =
      ((a * 256 + b) * 256 + c) * 256 + d := by
  rw [byte_hex_eq a ha, byte_hex_eq b hb, byte_hex_eq c hc, byte_hex_eq d hd]
  show parse_hex 0 _ = _
  simp only [List.cons_append, List.nil_append, parse_hex]
  rw [hex_digit_val_digitChar (a / 16) (by omega), hex_digit_val_digitChar (a % 16) (by omega),
    hex_digit_val_digitChar (b / 16) (by omega), hex_digit_val_digitChar (b % 16) (by omega),
    hex_digit_val_digitChar (c / 16) (by omega), hex_digit_val_digitChar (c % 16) (by omega),
    hex_digit_val_digitChar (d / 16) (by omega), hex_digit_val_digitChar (d % 16) (by omega)]
  omega

theorem decode_eq_be (bytes : List Nat) (hb : ∀ x ∈ bytes, x < 256) :
    decode_member_list bytes = be_groups bytes := by
  induction bytes using be_groups.induct with
  | case1 a b c d rest ih =>
    rw [decode_member_cons,
      int16_quad a b c d (hb a (by simp)) (hb b (by simp)) (hb c (by simp))
        (hb d (by simp)),
      ih (fun x hx => hb x (by simp [hx]))]
    rfl
  | case2 l h =>
    rcases l with _ | ⟨a, _ | ⟨b, _ | ⟨c, _ | ⟨d, rest⟩⟩⟩⟩
    · simp [decode_member_list, every4, zip4, be_groups]
    · simp [decode_member_list, every4, zip4, be_groups]
    · simp [decode_member_list, every4, zip4, be_groups]
    · simp [decode_member_list, every4, zip4, be_groups]
    · exact absurd rfl (h a b c d rest)

theorem be_groups_len (l : List Nat) : (be_groups l).length = l.length / 4 := by
  induction l using be_groups.induct with
  | case1 a b c d rest ih =>
    show (_ :: be_groups rest).length = _
    simp [ih]
    omega
  | case2 l h =>
    rcases l with _ | ⟨a, _ | ⟨b, _ | ⟨c, _ | ⟨d, rest⟩⟩⟩⟩
    · simp [be_groups]
    · simp [be_groups]
    · simp [be_groups]
    · simp [be_groups]
    · exact absurd rfl (h a b c d rest)

theorem be_groups_lt (l : List Nat) (hb : ∀ x ∈ l, x < 256) :
    ∀ y ∈ be_groups l, y < 4294967296 := by
  induction l using be_groups.induct with
  | case1 a b c d rest ih =>
    intro y hy
    have hstep : be_groups (a :: b :: c :: d :: rest) =
        (((a * 256 + b) * 256 + c) * 256 + d) :: be_groups rest := rfl
    rw [hstep] at hy
    rcases List.mem_cons.mp hy with h | h
    · have h1 := hb a (by simp)
      have h2 := hb b (by simp)
      have h3 := hb c (by simp)
      have h4 := hb d (by simp)
      subst h
      nlinarith
    · exact ih (fun x hx => hb x (by simp [hx])) y h
  | case2 l hno =>
    intro y hy
    rcases l with _ | ⟨a, _ | ⟨b, _ | ⟨c, _ | ⟨d, rest⟩⟩⟩⟩
    · simp [be_groups] at hy
    · simp [be_groups] at hy
    · simp [be_groups] at hy
    · simp [be_groups] at hy
    · exact absurd rfl (hno a b c d rest)

theorem be_groups_take (l : List Nat) :
    be_groups (l.take (4 * (l.length / 4))) = be_groups l := by
  induction l using be_groups.induct with
  | case1 a b c d rest ih =>
    have h4 : 4 * ((a :: b :: c :: d :: rest).length / 4) =
        (4 * (rest.length / 4)) + 4 := by
      simp
      omega
    rw [h4]
    show be_groups (a :: b :: c :: d :: List.take (4 * (rest.length / 4)) rest) = _
    have hl : be_groups (a :: b :: c :: d :: List.take (4 * (rest.length / 4)) rest) =
        (((a * 256 + b) * 256 + c) * 256 + d) ::
          be_groups (List.take (4 * (rest.length / 4)) rest) := rfl
    have hr : be_groups (a :: b :: c :: d :: rest) =
        (((a * 256 + b) * 256 + c) * 256 + d) :: be_groups rest := rfl
    rw [hl, hr, ih]
  | case2 l hno =>
    rcases l with _ | ⟨a, _ | ⟨b, _ | ⟨c, _ | ⟨d, rest⟩⟩⟩⟩
    · simp [be_groups]
    · simp [be_groups]
    · simp [be_groups]
    · simp [be_groups]
    · exact absurd rfl (hno a b c d rest)

/-- C3: for every byte string of length 4k the member-port decoder returns
exactly k unsigned 32-bit integers, one per 4-byte big-endian group, in
source order (the result is the ordered big-endian group list itself). -/
theorem c3_member_decode (bytes : List Nat) (hb : ∀ x ∈ bytes, x < 256) (k : Nat)
    (hk : bytes.length = 4 * k) :
    decode_member_list bytes = be_groups bytes ∧
    (decode_member_list bytes).length = k ∧
    ∀ y ∈ decode_member_list bytes, y < 4294967296 := by
  have hd := decode_eq_be bytes hb
  refine ⟨hd, ?_, ?_⟩
  · rw [hd, be_groups_len, hk]
    omega
  · rw [hd]
    exact be_groups_lt bytes hb

theorem c3_member_decode_witness :
    decode_member_list [0, 0, 1, 0] = be_groups [0, 0, 1, 0] ∧
    (decode_member_list [0, 0, 1, 0]).length = 1 ∧
    ∀ y ∈ decode_member_list [0, 0, 1, 0], y < 4294967296 :=
  c3_member_decode [0, 0, 1, 0] (by decide) 1 (by decide)

/-- C4 counterexample: a five-byte input is not a multiple of four bytes,
yet the decoder returns a truncated one-element result instead of failing
with a MalformedPayload error. -/
theorem c4_malformed_counterexample :
    [0, 0, 1, 0, 7].length % 4 ≠ 0 ∧ decode_member_list [0, 0, 1, 0, 7] = [256] :=
  ⟨by decide, by decide⟩

/-- C4 amended: for every byte string whose length is not a multiple of 4
the decoder raises no error at all; it silently drops the trailing
length-mod-4 bytes and returns the length-div-4 leading big-endian
groups. -/
theorem c4_truncation (bytes : List Nat) (hb : ∀ x ∈ bytes, x < 256)
    (hk : bytes.length % 4 ≠ 0) :
    decode_member_list bytes = be_groups (bytes.take (4 * (bytes.length / 4))) ∧
    (decode_member_list bytes).length = bytes.length / 4 := by
  have hd := decode_eq_be bytes hb
  constructor
  · rw [hd, be_groups_take]
  · rw [hd, be_groups_len]

theorem c4_truncation_witness :
    decode_member_list [0, 0, 1, 0, 7] =
      be_groups ([0, 0, 1, 0, 7].take (4 * ([0, 0, 1, 0, 7].length / 4))) ∧
    (decode_member_list [0, 0, 1, 0, 7]).length = [0, 0, 1, 0, 7].length / 4 :=
  c4_truncation [0, 0, 1, 0, 7] (by decide) (by decide)

theorem lacp_scan_error_line (intf : PyStr) (lines : List PyStr) (info : LacpInfo)
    (h : ∃ l ∈ lines, py_in "Error".data l = true) :
    ∃ e, lacp_scan intf lines info = .error e := by
  induction lines generalizing info with
  | nil => simp at h
  | cons p ps ih =>
    rcases h with ⟨l, hl, herr⟩
    by_cases hp : py_in "Error".data p = true
    · exact ⟨.valueError (String.mk p), by simp [lacp_scan, hp]⟩
    · have hl2 : l ∈ ps := by
        rcases List.mem_cons.mp hl with h1 | h1
        · exact absurd (h1 ▸ herr) hp
        · exact h1
      rw [Bool.not_eq_true] at hp
      by_cases hm : py_in intf p = true
      · cases hproc : lacp_process_line intf p info with
        | error e => exact ⟨e, by simp [lacp_scan, hp, hm, hproc]⟩
        | ok info3 =>
          obtain ⟨e, he⟩ := ih info3 ⟨l, hl2, herr⟩
          exact ⟨e, by simp [lacp_scan, hp, hm, hproc, he]⟩
      · rw [Bool.not_eq_true] at hm
        obtain ⟨e, he⟩ := ih info ⟨l, hl2, herr⟩
        exact ⟨e, by simp [lacp_scan, hp, hm, he]⟩

/-- C5 amended: the Error-line short-circuit is implemented by
get_lacp_member_info only: there, any output line containing the Error
token makes the scrape fail, and when the lines before the first Error
line scan cleanly the raised error carries exactly that line's text.  The
policy is not uniform: get_port_channel_list has no such check (see the
counterexample). -/
theorem c5_error_line_policy :
    (∀ (cb : Callback) (lag intf out : PyStr),
      cb.cliGet ("show lacp lag_name ".data ++ lag) = .ok out →
      (∃ l ∈ split_on_char '\n' out, py_in "Error".data l = true) →
      ∃ e, get_lacp_member_info cb lag intf = .error e) ∧
    (∀ (intf : PyStr) (pre : List PyStr) (l : PyStr) (post : List PyStr)
        (info info2 : LacpInfo),
      lacp_scan intf pre info = .ok info2 → py_in "Error".data l = true →
      lacp_scan intf (pre ++ l :: post) info = .error (.valueError (String.mk l))) := by
  constructor
  · intro cb lag intf out hcli hex
    have := lacp_scan_error_line intf (split_on_char '\n' out) {} hex
    obtain ⟨e, he⟩ := this
    refine ⟨e, ?_⟩
    unfold get_lacp_member_info
    rw [hcli]
    simpa [Bind.bind, Except.bind] using he
  · intro intf pre l post info info2 hpre herr
    induction pre generalizing info with
    | nil => simp [lacp_scan, herr]
    | cons p ps ih =>
      by_cases hp : py_in "Error".data p = true
      · rw [show lacp_scan intf (p :: ps) info =
            .error (.valueError (String.mk p)) from by simp [lacp_scan, hp]] at hpre
        cases hpre
      · rw [Bool.not_eq_true] at hp
        by_cases hm : py_in intf p = true
        · cases hproc : lacp_process_line intf p info with
          | error e =>
            rw [show lacp_scan intf (p :: ps) info = .error e from by
              simp [lacp_scan, hp, hm, hproc]] at hpre
            cases hpre
          | ok info3 =>
            have hpre3 : lacp_scan intf ps info3 = .ok info2 := by
              rw [show lacp_scan intf (p :: ps) info = lacp_scan intf ps info3 from by
                simp [lacp_scan, hp, hm, hproc]] at hpre
              exact hpre
            simpa [lacp_scan, hp, hm, hproc] using ih info3 hpre3
        · rw [Bool.not_eq_true] at hm
          have hpre2 : lacp_scan intf ps info = .ok info2 := by
            rw [show lacp_scan intf (p :: ps) info = lacp_scan intf ps info from by
              simp [lacp_scan, hp, hm]] at hpre
            exact hpre
          simpa [lacp_scan, hp, hm] using ih info hpre2

theorem c5_error_line_policy_witness :
    ∃ e, get_lacp_member_info cb_c5 "po1".data "2/1".data = .error e :=
  c5_error_line_policy.1 cb_c5 "po1".data "2/1".data "Error: port is down".data rfl
    ⟨"Error: port is down".data, by decide, by decide⟩

/-- C5 counterexample: a CLI stream whose only line carries the Error
token is parsed by get_port_channel_list without any DeviceError: it
returns an empty summary list, so the short-circuit policy does not hold
uniformly across the CLI-sourced operations. -/
theorem c5_counterexample :
    py_in "Error".data "Error: port is down".data = true ∧
    get_port_channel_list cb_c5 = .ok [] :=
  ⟨by decide, by decide⟩

theorem split_no_nl (l : PyStr) (h : '\n' ∉ l) : split_on_char '\n' l = [l] := by
  induction l with
  | nil => rfl
  | cons c t ih =>
    have hc : ¬ c = '\n' := fun hx => h (hx ▸ List.mem_cons_self c t)
    have ht := ih (fun hx => h (List.mem_cons_of_mem c hx))
    simp [split_on_char, hc, ht]

theorem split_cons_nl (l t : PyStr) (h : '\n' ∉ l) :
    split_on_char '\n' (l ++ '\n' :: t) = l :: split_on_char '\n' t := by
  induction l with
  | nil => simp [split_on_char]
  | cons c cs ih =>
    have hc : ¬ c = '\n' := fun hx => h (hx ▸ List.mem_cons_self c cs)
    have ht := ih (fun hx => h (List.mem_cons_of_mem c hx))
    simp [split_on_char, hc, ht]

theorem split_join : ∀ ls : List PyStr, ls ≠ [] → (∀ l ∈ ls, '\n' ∉ l) →
    split_on_char '\n' (join_lines ls) = ls
  | [], hne, _ => absurd rfl hne
  | [l], _, h => split_no_nl l (h l (by simp))
  | l :: r2 :: rs, _, h => by
    have hrec := split_join (r2 :: rs) (by simp) (fun x hx => h x (by simp [hx]))
    show split_on_char '\n' (l ++ '\n' :: join_lines (r2 :: rs)) = _
    rw [split_cons_nl _ _ (h l (by simp)), hrec]

theorem lag_scan_seek (pre ls : List PyStr)
    (h : ∀ l ∈ pre, py_in "Deploy".data l = false) :
    lag_brief_scan (pre ++ ls) false = lag_brief_scan ls false := by
  induction pre with
  | nil => rfl
  | cons p ps ih =>
    have hp := h p (by simp)
    show lag_brief_scan (p :: (ps ++ ls)) false = _
    rw [show lag_brief_scan (p :: (ps ++ ls)) false = lag_brief_scan (ps ++ ls) false from by
      simp [lag_brief_scan, hp]]
    exact ih (fun x hx => h x (by simp [hx]))

theorem py_index_ok {α : Type} (l : List α) (i : Nat) (h : i < l.length) (d : α) :
    py_index l i = .ok (l.getD i d) := by
  simp [py_index, h, List.getD_eq_getElem l d h]

theorem lag_scan_table (data rest : List PyStr)
    (h : ∀ l ∈ data, l ≠ [] ∧ py_in "Deploy".data l = false ∧ 5 ≤ (py_split l).length) :
    lag_brief_scan (data ++ [] :: rest) true = .ok (data.map row_of) := by
  induction data with
  | nil =>
    have hd : py_in "Deploy".data ([] : PyStr) = false := by decide
    show lag_brief_scan ([] :: rest) true = .ok []
    simp [lag_brief_scan, hd]
  | cons dline ds ih =>
    obtain ⟨hne, hdep, hlen⟩ := h dline (by simp)
    have htail := ih (fun x hx => h x (by simp [hx]))
    show lag_brief_scan (dline :: (ds ++ [] :: rest)) true =
      .ok (row_of dline :: ds.map row_of)
    simp only [lag_brief_scan, hdep, Bool.false_eq_true, if_false, if_true, hne,
      py_index_ok (py_split dline) 0 (by omega) [],
      py_index_ok (py_split dline) 1 (by omega) [],
      py_index_ok (py_split dline) 2 (by omega) [],
      py_index_ok (py_split dline) 4 (by omega) [], htail, row_of]

/-- C6 amended: a stream made of a prefix free of the header token, a
header line containing Deploy, N data lines and a blank line followed by
anything yields exactly N records provided each data line is non-blank,
does not itself contain the header token and splits into at least five
whitespace fields (a data line containing Deploy is skipped by the header
branch and a shorter line raises IndexError, see the counterexample);
each record carries tokens 0, 1 and 4 with token 2 compared to Y, the
scan never re-enters header-seeking, and it stops at the first blank
line. -/
theorem c6_header_table (cb : Callback) (pre : List PyStr) (hdr : PyStr)
    (data rest : List PyStr)
    (hcli : cb.cliGet "show lag brief".data =
      .ok (join_lines (pre ++ (hdr :: (data ++ [] :: rest)))))
    (hnl : ∀ l ∈ pre ++ (hdr :: (data ++ [] :: rest)), '\n' ∉ l)
    (hpre : ∀ l ∈ pre, py_in "Deploy".data l = false)
    (hhdr : py_in "Deploy".data hdr = true)
    (hdata : ∀ l ∈ data, l ≠ [] ∧ py_in "Deploy".data l = false ∧
      5 ≤ (py_split l).length) :
    get_port_channel_list cb = .ok (data.map row_of) ∧
    (data.map row_of).length = data.length := by
  refine ⟨?_, by simp⟩
  unfold get_port_channel_list
  rw [hcli]
  have hsplit := split_join (pre ++ (hdr :: (data ++ [] :: rest))) (by simp) hnl
  show (Except.ok (join_lines (pre ++ (hdr :: (data ++ [] :: rest)))) >>= fun output =>
    lag_brief_scan (split_on_char '\n' output) false) = _
  rw [show ∀ (x : PyStr) (f : PyStr → Except PyErr (List LagBrief)),
      (Except.ok x >>= f) = f x from fun x f => rfl]
  rw [hsplit, lag_scan_seek pre (hdr :: (data ++ [] :: rest)) hpre,
    show lag_brief_scan (hdr :: (data ++ [] :: rest)) false =
      lag_brief_scan (data ++ [] :: rest) true from by simp [lag_brief_scan, hhdr]]
  exact lag_scan_table data rest hdata

theorem c6_header_table_witness :
    get_port_channel_list cb_c6w = .ok (["po9 static N 50 3/2".data].map row_of) ∧
    (["po9 static N 50 3/2".data].map row_of).length =
      ["po9 static N 50 3/2".data].length :=
  c6_header_table cb_c6w ["pre1".data] "LAG Deploy".data ["po9 static N 50 3/2".data]
    ["junk".data] (by decide) (by decide) (by decide) (by decide) (by decide)

/-- C6 counterexample: a header line followed by one non-blank data line
that itself contains the header token yields zero records instead of one
(the line is consumed by the header branch), and a header followed by one
short non-blank data line raises IndexError instead of yielding one
record, so the parse does not return one record per arbitrary non-blank
data line. -/
theorem c6_counterexample :
    py_in "Deploy".data "po1 Deploy Y n 2/1".data = true ∧
    "po1 Deploy Y n 2/1".data ≠ [] ∧
    get_port_channel_list cb_c6 = .ok [] ∧
    get_port_channel_list cb_c6b = .error .indexError :=
  ⟨by decide, by decide, by decide, by decide⟩

theorem lacp_agg_fields_static (mib : Mib) (cb : Callback) (ifx mode : PyStr)
    (dep : Bool) (h : ¬(mode = "dynamic".data ∧ dep = true)) :
    lacp_agg_fields mib cb ifx mode dep = .ok ⟨[], [], [], [], [], [], []⟩ := by
  unfold lacp_agg_fields
  rw [if_neg h]
  rfl

theorem process_member_static (cb : Callback) (nm mode : PyStr) (dep : Bool)
    (h : ¬(mode = "dynamic".data ∧ dep = true)) (acc : MemberAcc)
    (item : Nat × PyStr) :
    process_member cb nm mode dep acc item =
      .ok ⟨acc.interface_list ++ [static_entry item], acc.rx_link_count,
        acc.tx_link_count, acc.ready_agg⟩ := by
  unfold process_member
  rw [if_neg h]
  rfl

theorem fold_static (cb : Callback) (nm mode : PyStr) (dep : Bool)
    (h : ¬(mode = "dynamic".data ∧ dep = true)) :
    ∀ (l : List (Nat × PyStr)) (acc : MemberAcc),
      l.foldlM (process_member cb nm mode dep) acc =
        .ok ⟨acc.interface_list ++ l.map static_entry, acc.rx_link_count,
          acc.tx_link_count, acc.ready_agg⟩
  | [], acc => by
    show pure acc = _
    simp only [List.map_nil, List.append_nil]
    rfl
  | x :: xs, acc => by
    rw [List.foldlM_cons, process_member_static cb nm mode dep h acc x]
    rw [show ∀ (a : MemberAcc) (f : MemberAcc → Except PyErr MemberAcc),
        (Except.ok a >>= f) = f a from fun a f => rfl]
    rw [fold_static cb nm mode dep h xs
      ⟨acc.interface_list ++ [static_entry x], acc.rx_link_count,
        acc.tx_link_count, acc.ready_agg⟩]
    simp

theorem member_dyn_cli (cb : Callback) (nm : PyStr) (acc acc2 : MemberAcc)
    (item : Nat × PyStr)
    (h : process_member cb nm "dynamic".data true acc item = .ok acc2) :
    ∃ out, cb.cliGet ("show lacp lag_name ".data ++ nm) = .ok out := by
  unfold process_member at h
  rw [if_pos ⟨rfl, rfl⟩] at h
  simp only [] at h
  rcases (except_bind_ok _ _ _).1 h with ⟨port, hport, _⟩
  unfold get_lacp_member_info at hport
  rcases (except_bind_ok _ _ _).1 hport with ⟨out, hout, _⟩
  exact ⟨out, hout⟩

theorem ok_bind {ε α β : Type} (a : α) (f : α → Except ε β) :
    (Except.ok (ε := ε) a >>= f) = f a := rfl

/-- C7: per LAG, the dynamic-and-deployed branch fetches the seven LACP
aggregate fields over SNMP (system ids through the mac formatter) and
scrapes per-member LACP state over the CLI; for a static or undeployed
LAG every LACP field of the record is the empty-string or zero default,
every member sync flag is the digit zero, the result does not depend on
any LACP SNMP object, on the LACP CLI scrape or on the mac formatter (no
LACP fetch is issued), and reaching the defaults is not an error. -/
theorem c7_lacp_policy :
    (∀ (mib : Mib) (cb : Callback) (po : LagBrief) (r : PortChannelResult),
      (po.lag_type ≠ "dynamic".data ∨ po.deploy = false) →
      process_po mib cb po = .ok r →
      r.system_priority = [] ∧ r.actor_system_id = [] ∧
      r.partner_oper_priority = [] ∧ r.partner_system_id = [] ∧
      r.admin_key = [] ∧ r.oper_key = [] ∧ r.partner_oper_key = [] ∧
      r.rx_link_count = 0 ∧ r.tx_link_count = 0 ∧ r.ready_agg = 0 ∧
      ∀ e ∈ r.interfaces, e.sync = "0".data) ∧
    (∀ (mib : Mib) (cb cb' : Callback) (po : LagBrief),
      (po.lag_type ≠ "dynamic".data ∨ po.deploy = false) →
      get_port_channel_ifindex mib cb' (some po.lag_name) =
        get_port_channel_ifindex mib cb (some po.lag_name) →
      get_port_channel_id mib cb' (some po.lag_name) =
        get_port_channel_id mib cb (some po.lag_name) →
      get_port_channel_member_ports mib cb' (some po.lag_name) =
        get_port_channel_member_ports mib cb (some po.lag_name) →
      process_po mib cb' po = process_po mib cb po) ∧
    (∀ (mib : Mib) (cb : Callback) (po : LagBrief) (r : PortChannelResult),
      po.lag_type = "dynamic".data → po.deploy = true →
      process_po mib cb po = .ok r →
      ∃ ifx, get_port_channel_ifindex mib cb (some po.lag_name) = .ok ifx ∧
        cb.snmpGet (mib "dot3adAggActorSystemPriority".data ++ '.' :: ifx) =
          .ok r.system_priority ∧
        (∃ araw, cb.snmpGet (mib "dot3adAggActorSystemID".data ++ '.' :: ifx) =
          .ok araw ∧ r.actor_system_id = cb.macAddress araw) ∧
        cb.snmpGet (mib "dot3adAggPartnerSystemPriority".data ++ '.' :: ifx) =
          .ok r.partner_oper_priority ∧
        (∃ praw, cb.snmpGet (mib "dot3adAggPartnerSystemID".data ++ '.' :: ifx) =
          .ok praw ∧ r.partner_system_id = cb.macAddress praw) ∧
        cb.snmpGet (mib "dot3adAggActorAdminKey".data ++ '.' :: ifx) =
          .ok r.admin_key ∧
        cb.snmpGet (mib "dot3adAggActorOperKey".data ++ '.' :: ifx) =
          .ok r.oper_key ∧
        cb.snmpGet (mib "dot3adAggPartnerOperKey".data ++ '.' :: ifx) =
          .ok r.partner_oper_key ∧
        (r.interfaces ≠ [] →
          ∃ out, cb.cliGet ("show lacp lag_name ".data ++ po.lag_name) = .ok out)) := by
  refine ⟨?_, ?_, ?_⟩
  · intro mib cb po r hst h
    have hcond : ¬(po.lag_type = "dynamic".data ∧ po.deploy = true) := by
      rcases hst with hx | hx
      · exact fun hy => hx hy.1
      · exact fun hy => by rw [hx] at hy; exact Bool.false_ne_true hy.2
    unfold process_po at h
    simp only [] at h
    obtain ⟨ifx, hifx, h⟩ := (except_bind_ok _ _ _).1 h
    obtain ⟨aggid, haggid, h⟩ := (except_bind_ok _ _ _).1 h
    obtain ⟨f, hf, h⟩ := (except_bind_ok _ _ _).1 h
    obtain ⟨ifidns, hifidns, h⟩ := (except_bind_ok _ _ _).1 h
    obtain ⟨acc, hacc, h⟩ := (except_bind_ok _ _ _).1 h
    rw [lacp_agg_fields_static mib cb ifx po.lag_type po.deploy hcond] at hf
    rw [fold_static cb po.lag_name po.lag_type po.deploy hcond ifidns
      ⟨[], 0, 0, 0⟩] at hacc
    have hfe : f = ⟨[], [], [], [], [], [], []⟩ := (Except.ok.inj hf).symm
    have hae : acc = ⟨[] ++ ifidns.map static_entry, 0, 0, 0⟩ :=
      (Except.ok.inj hacc).symm
    have hre : r = ⟨po.lag_name, acc.interface_list, aggid, "standard".data, false,
        po.lag_type, f.system_priority, f.actor_system_id, f.partner_oper_priority,
        f.partner_system_id, f.admin_key, f.oper_key, f.partner_oper_key,
        acc.rx_link_count, acc.tx_link_count, 0, acc.ready_agg⟩ :=
      (Except.ok.inj (show Except.ok _ = _ from h)).symm
    subst hfe
    subst hae
    subst hre
    refine ⟨rfl, rfl, rfl, rfl, rfl, rfl, rfl, rfl, rfl, rfl, ?_⟩
    intro e he
    simp only [List.nil_append, List.mem_map] at he
    obtain ⟨a, _, rfl⟩ := he
    rfl
  · intro mib cb cb' po hst h1 h2 h3
    have hcond : ¬(po.lag_type = "dynamic".data ∧ po.deploy = true) := by
      rcases hst with hx | hx
      · exact fun hy => hx hy.1
      · exact fun hy => by rw [hx] at hy; exact Bool.false_ne_true hy.2
    unfold process_po
    rw [h1]
    congr 1
    funext ifx
    rw [h2]
    congr 1
    funext aggid
    simp only []
    rw [lacp_agg_fields_static mib cb' ifx po.lag_type po.deploy hcond,
      lacp_agg_fields_static mib cb ifx po.lag_type po.deploy hcond, ok_bind, ok_bind]
    rw [h3]
    congr 1
    funext ifidns
    rw [fold_static cb' po.lag_name po.lag_type po.deploy hcond ifidns ⟨[], 0, 0, 0⟩,
      fold_static cb po.lag_name po.lag_type po.deploy hcond ifidns ⟨[], 0, 0, 0⟩]
  · intro mib cb po r hmode hdep h
    unfold process_po at h
    simp only [] at h
    obtain ⟨ifx, hifx, h⟩ := (except_bind_ok _ _ _).1 h
    obtain ⟨aggid, haggid, h⟩ := (except_bind_ok _ _ _).1 h
    obtain ⟨f, hf, h⟩ := (except_bind_ok _ _ _).1 h
    obtain ⟨ifidns, hifidns, h⟩ := (except_bind_ok _ _ _).1 h
    obtain ⟨acc, hacc, h⟩ := (except_bind_ok _ _ _).1 h
    have hre : r = ⟨po.lag_name, acc.interface_list, aggid, "standard".data, false,
        po.lag_type, f.system_priority, f.actor_system_id, f.partner_oper_priority,
        f.partner_system_id, f.admin_key, f.oper_key, f.partner_oper_key,
        acc.rx_link_count, acc.tx_link_count, 0, acc.ready_agg⟩ :=
      (Except.ok.inj (show Except.ok _ = _ from h)).symm
    rw [hmode, hdep] at hf hacc
    unfold lacp_agg_fields at hf
    rw [if_pos ⟨rfl, rfl⟩] at hf
    simp only [] at hf
    obtain ⟨sp, hsp, hf⟩ := (except_bind_ok _ _ _).1 hf
    obtain ⟨araw, haraw, hf⟩ := (except_bind_ok _ _ _).1 hf
    obtain ⟨pop, hpop, hf⟩ := (except_bind_ok _ _ _).1 hf
    obtain ⟨praw, hpraw, hf⟩ := (except_bind_ok _ _ _).1 hf
    obtain ⟨ak, hak, hf⟩ := (except_bind_ok _ _ _).1 hf
    obtain ⟨okey, hokey, hf⟩ := (except_bind_ok _ _ _).1 hf
    obtain ⟨pokey, hpokey, hf⟩ := (except_bind_ok _ _ _).1 hf
    have hfe : f = ⟨sp, cb.macAddress araw, pop, cb.macAddress praw, ak, okey, pokey⟩ :=
      (Except.ok.inj (show Except.ok _ = _ from hf)).symm
    subst hfe
    subst hre
    refine ⟨ifx, hifx, hsp, ⟨araw, haraw, rfl⟩, hpop, ⟨praw, hpraw, rfl⟩, hak, hokey,
      hpokey, ?_⟩
    intro hne
    cases ifidns with
    | nil =>
      have : acc = ⟨[], 0, 0, 0⟩ :=
        (Except.ok.inj (show Except.ok _ = _ from hacc)).symm
      rw [this] at hne
      exact absurd rfl hne
    | cons x xs =>
      rw [List.foldlM_cons] at hacc
      obtain ⟨a1, ha1, _⟩ := (except_bind_ok _ _ _).1 hacc
      exact member_dyn_cli cb po.lag_name _ a1 x ha1

theorem c7_lacp_policy_witness :
    (r_static.system_priority = [] ∧ r_static.actor_system_id = [] ∧
      r_static.partner_oper_priority = [] ∧ r_static.partner_system_id = [] ∧
      r_static.admin_key = [] ∧ r_static.oper_key = [] ∧
      r_static.partner_oper_key = [] ∧ r_static.rx_link_count = 0 ∧
      r_static.tx_link_count = 0 ∧ r_static.ready_agg = 0 ∧
      ∀ e ∈ r_static.interfaces, e.sync = "0".data) ∧
    (∃ ifx, get_port_channel_ifindex mib0 cb_dyn (some po_dyn.lag_name) = .ok ifx ∧
      cb_dyn.snmpGet (mib0 "dot3adAggActorSystemPriority".data ++ '.' :: ifx) =
        .ok r_dyn.system_priority) := by
  constructor
  · exact c7_lacp_policy.1 mib0 cb_static po_static r_static (Or.inl (by decide))
      (by decide)
  · obtain ⟨ifx, h1, h2, _⟩ :=
      c7_lacp_policy.2.2 mib0 cb_dyn po_dyn r_dyn rfl rfl (by decide)
    exact ⟨ifx, h1, h2⟩

/-- C8 amended: when the required pattern does not match the scraped text,
get_ip_addresses does not surface a FieldNotFound error; it returns the
bare False default, for the version-4 ip-address label and the version-6
enabled marker alike. -/
theorem c8_pattern_miss :
    (∀ (cb : Callback) (it nm out : PyStr),
      cb.cliGet (ip4_cmd it nm) = .ok out → py_in "ip address:".data out = false →
      get_ip_addresses cb it nm 4 = .ok (.boolRet false)) ∧
    (∀ (cb : Callback) (it nm out : PyStr),
      cb.cliGet (ip6_cmd it nm) = .ok out → py_in "IPv6 is enabled".data out = false →
      get_ip_addresses cb it nm 6 = .ok (.boolRet false)) := by
  constructor
  · intro cb it nm out hcli hmiss
    unfold get_ip_addresses
    rw [if_pos rfl, hcli, ok_bind]
    simp [hmiss]
    rfl
  · intro cb it nm out hcli hmiss
    unfold get_ip_addresses
    rw [if_neg (by norm_num), if_pos rfl, hcli, ok_bind]
    simp [hmiss]
    rfl

theorem c8_pattern_miss_witness :
    get_ip_addresses cb_c8 "ethernet".data "1/1".data 4 = .ok (.boolRet false) :=
  c8_pattern_miss.1 cb_c8 "ethernet".data "1/1".data "TestPort is up".data rfl
    (by decide)

/-- C8 counterexample: on scraped text without the ip-address label the
operation returns the default False instead of surfacing a FieldNotFound
error to the caller. -/
theorem c8_counterexample :
    py_in "ip address:".data "TestPort is up".data = false ∧
    get_ip_addresses cb_c8 "ethernet".data "1/1".data 4 = .ok (.boolRet false) :=
  ⟨by decide, by decide⟩

/-- C9: parse_mirror returns None whenever the mirror key is present and
raises KeyError whenever it is absent, so it never returns the mirror
string; parse_log behaves symmetrically for the log key, so the
mutual-exclusion branches after each first conditional are unreachable. -/
theorem c9_mirror_log :
    (∀ p : Params, (p.lookup "mirror").isSome = true → parse_mirror p = .ok none) ∧
    (∀ p : Params, p.lookup "mirror" = none →
      parse_mirror p = .error (.keyError "mirror")) ∧
    (∀ (p : Params) (s : String), parse_mirror p ≠ .ok (some s)) ∧
    (∀ p : Params, (p.lookup "log").isSome = true → parse_log p = .ok none) ∧
    (∀ p : Params, p.lookup "log" = none → parse_log p = .error (.keyError "log")) ∧
    (∀ (p : Params) (s : String), parse_log p ≠ .ok (some s)) := by
  have hm1 : ∀ p : Params, (p.lookup "mirror").isSome = true → parse_mirror p = .ok none := by
    intro p h
    unfold parse_mirror
    rw [if_pos h]
  have hm2 : ∀ p : Params, p.lookup "mirror" = none →
      parse_mirror p = .error (.keyError "mirror") := by
    intro p h
    unfold parse_mirror
    rw [if_neg (by simp [h]), show py_get p "mirror" = .error (.keyError "mirror") from by
      simp [py_get, h]]
  have hl1 : ∀ p : Params, (p.lookup "log").isSome = true → parse_log p = .ok none := by
    intro p h
    unfold parse_log
    rw [if_pos h]
  have hl2 : ∀ p : Params, p.lookup "log" = none →
      parse_log p = .error (.keyError "log") := by
    intro p h
    unfold parse_log
    rw [if_neg (by simp [h]), show py_get p "log" = .error (.keyError "log") from by
      simp [py_get, h]]
  refine ⟨hm1, hm2, ?_, hl1, hl2, ?_⟩
  · intro p s h
    rcases ho : p.lookup "mirror" with _ | v
    · rw [hm2 p ho] at h
      cases h
    · rw [hm1 p (by simp [ho])] at h
      cases h
  · intro p s h
    rcases ho : p.lookup "log" with _ | v
    · rw [hl2 p ho] at h
      cases h
    · rw [hl1 p (by simp [ho])] at h
      cases h

theorem c9_mirror_log_witness :
    parse_mirror [("mirror", PyVal.vStr "True")] = .ok none ∧
    parse_log [] = .error (.keyError "log") :=
  ⟨c9_mirror_log.1 [("mirror", PyVal.vStr "True")] (by decide),
    c9_mirror_log.2.2.2.2.1 [] (by decide)⟩

/-- C10: parse_seq_id yields None when seq_id is absent or falsy (in
particular the out-of-range value 0 yields None rather than an error),
renders any integer between 1 and 214748364 as its decimal string, and
raises ValueError for every other truthy value of the modelled domain of
integers, strings and None. -/
theorem c10_parse_seq_id :
    (∀ p : Params, p.lookup "seq_id" = none → parse_seq_id p = .ok none) ∧
    (∀ (p : Params) (v : PyVal), p.lookup "seq_id" = some v → py_truthy v = false →
      parse_seq_id p = .ok none) ∧
    (∀ p : Params, p.lookup "seq_id" = some (.vInt 0) → parse_seq_id p = .ok none) ∧
    (∀ (p : Params) (n : Int), p.lookup "seq_id" = some (.vInt n) → 1 ≤ n →
      n ≤ 214748364 → parse_seq_id p = .ok (some (toString n))) ∧
    (∀ (p : Params) (v : PyVal), p.lookup "seq_id" = some v → py_truthy v = true →
      (∀ n : Int, v = .vInt n → n < 1 ∨ 214748364 < n) →
      ∃ m, parse_seq_id p = .error (.valueError m)) := by
  have h2 : ∀ (p : Params) (v : PyVal), p.lookup "seq_id" = some v →
      py_truthy v = false → parse_seq_id p = .ok none := by
    intro p v h hf
    unfold parse_seq_id
    rw [h]
    simp [hf]
  refine ⟨?_, h2, fun p h => h2 p _ h (by decide), ?_, ?_⟩
  · intro p h
    unfold parse_seq_id
    rw [h]
  · intro p n h h1 hup
    unfold parse_seq_id
    rw [h]
    have ht : py_truthy (.vInt n) = true := by
      simp [py_truthy]
      omega
    have hgt : py_gt_int (.vInt n) 0 = true := by
      simp [py_gt_int]
      omega
    have hlt : py_lt_int (.vInt n) 214748365 = true := by
      simp [py_lt_int]
      omega
    simp [ht, hgt, hlt, py_val_str]
  · intro p v h htr hrange
    unfold parse_seq_id
    rw [h]
    cases v with
    | vInt n =>
      have hr := hrange n rfl
      have hfail : ¬(py_gt_int (.vInt n) 0 = true ∧ py_lt_int (.vInt n) 214748365 = true) := by
        simp [py_gt_int, py_lt_int]
        omega
      refine ⟨"The seq_id value " ++ py_val_str (.vInt n) ++
        " is invalid.Valid range for sequence is 1 to 214748364.", ?_⟩
      simp [htr, hfail]
    | vStr s =>
      have hfail : ¬(py_gt_int (.vStr s) 0 = true ∧ py_lt_int (.vStr s) 214748365 = true) := by
        simp [py_gt_int, py_lt_int]
      refine ⟨"The seq_id value " ++ py_val_str (.vStr s) ++
        " is invalid.Valid range for sequence is 1 to 214748364.", ?_⟩
      simp [htr, hfail]
    | vNone => cases htr

theorem c10_parse_seq_id_witness :
    parse_seq_id [("seq_id", PyVal.vInt 7)] = .ok (some "7") ∧
    parse_seq_id [("seq_id", PyVal.vInt 0)] = .ok none ∧
    ∃ m, parse_seq_id [("seq_id", PyVal.vInt 300000000)] =
      .error (.valueError m) :=
  ⟨c10_parse_seq_id.2.2.2.1 [("seq_id", PyVal.vInt 7)] 7 (by decide) (by decide)
      (by decide),
    c10_parse_seq_id.2.2.1 [("seq_id", PyVal.vInt 0)] (by decide),
    c10_parse_seq_id.2.2.2.2 [("seq_id", PyVal.vInt 300000000)] (PyVal.vInt 300000000)
      (by decide) (by decide) (fun n hn => by injection hn with h2; omega)⟩
